import Mathlib

/-!
# Verification of `src/compiler/compiler_ir.h`

A shallow embedding of the constants, enumerations, encoding macros and tables of the
compiler IR header, followed by theorems about them.

Conventions:
* C `int` / `int32_t` values are `Int`; where wrap-around matters the result is passed
  through `wrapInt32`.
* `uint64_t` / `unsigned` bit patterns are `Nat`, reduced `% 2 ^ 64` / `% 2 ^ 32`.
* Pointers are `Option Nat` (`none` is `NULL`).
-/

namespace Art

/-! ## Machine integers -/

/-- Two's-complement wrap of a mathematical integer into the `int32_t` range. -/
def wrapInt32 (x : Int) : Int := (x + 2 ^ 31) % 2 ^ 32 - 2 ^ 31

/-- Bit pattern (as an unsigned 32-bit number) of an `int32_t` value. -/
def toUInt32 (x : Int) : Nat := (x % 2 ^ 32).toNat

/-- Value of an unsigned 32-bit pattern when stored in an `int` (two's complement). -/
def toInt32 (n : Nat) : Int := wrapInt32 (n : Int)

/-- Bitwise complement `~x` of a `uint64_t`. -/
def not64 (x : Nat) : Nat := (2 ^ 64 - 1) ^^^ (x % 2 ^ 64)

/-- Bitwise complement `~x` of a 32-bit pattern. -/
def not32 (x : Nat) : Nat := (2 ^ 32 - 1) ^^^ (x % 2 ^ 32)

/-! ## Block-count thresholds (compiler_ir.h:162-171) -/

/-- Definition `#define MANY_BLOCKS_INITIALIZER 1000`: threshold for switching dataflow off. -/
def MANY_BLOCKS_INITIALIZER : Int := 1000

/-- Definition `#define MANY_BLOCKS 4000`: non-initializer threshold. -/
def MANY_BLOCKS : Int := 4000

/-! ## Special SSA names (compiler_ir.h:152-160) -/

/-- Definition `#define INVALID_SREG (-1)`. -/
def INVALID_SREG : Int := -1

/-- Definition `#define INVALID_VREG (0xFFFFU)`. -/
def INVALID_VREG : Nat := 0xFFFF

/-- Definition `#define SSA_METHOD_BASEREG (-2)`. -/
def SSA_METHOD_BASEREG : Int := -2

/-- Definition `#define SSA_CTEMP_BASEREG (SSA_METHOD_BASEREG - 1)`: first compiler temp basereg. -/
def SSA_CTEMP_BASEREG : Int := wrapInt32 (SSA_METHOD_BASEREG - 1)

/-- The `k`-th compiler-temp base name: the counter starts at `SSA_CTEMP_BASEREG` and
"grows smaller", one step per temp, in `int` arithmetic. -/
def ssaCTempBaseReg (k : Nat) : Int := wrapInt32 (SSA_CTEMP_BASEREG - (k : Int))

/-! ## Use/def resource encoding (compiler_ir.h:191-219) -/

/-- Enumeration `enum ResourceEncodingPos`, enumerator `kMustNotAlias = 63`. -/
def kMustNotAlias : Nat := 63
/-- Enumerator `kHeapRef = 62`: default memory reference type. -/
def kHeapRef : Nat := 62
/-- Enumerator `kLiteral = 61`: literal pool memory reference. -/
def kLiteral : Nat := 61
/-- Enumerator `kDalvikReg = 60`: Dalvik vReg memory reference. -/
def kDalvikReg : Nat := 60
/-- Enumerator `kFPStatus = 59`. -/
def kFPStatus : Nat := 59
/-- Enumerator `kCCode = 58`. -/
def kCCode : Nat := 58
/-- Enumerator `kLowestCommonResource = kCCode`. -/
def kLowestCommonResource : Nat := kCCode

/-- The expression `1ULL << pos` in `uint64_t` arithmetic. -/
def shl1ULL (pos : Nat) : Nat := (1 <<< pos) % 2 ^ 64

/-- Definition `#define ENCODE_CCODE (1ULL << kCCode)`. -/
def ENCODE_CCODE : Nat := shl1ULL kCCode
/-- Definition `#define ENCODE_FP_STATUS (1ULL << kFPStatus)`. -/
def ENCODE_FP_STATUS : Nat := shl1ULL kFPStatus
/-- Definition `#define ENCODE_DALVIK_REG (1ULL << kDalvikReg)`. -/
def ENCODE_DALVIK_REG : Nat := shl1ULL kDalvikReg
/-- Definition `#define ENCODE_LITERAL (1ULL << kLiteral)`. -/
def ENCODE_LITERAL : Nat := shl1ULL kLiteral
/-- Definition `#define ENCODE_HEAP_REF (1ULL << kHeapRef)`. -/
def ENCODE_HEAP_REF : Nat := shl1ULL kHeapRef
/-- Definition `#define ENCODE_MUST_NOT_ALIAS (1ULL << kMustNotAlias)`. -/
def ENCODE_MUST_NOT_ALIAS : Nat := shl1ULL kMustNotAlias

/-- Definition `#define ENCODE_ALL (~0ULL)`. -/
def ENCODE_ALL : Nat := not64 0

/-- Definition `#define ENCODE_MEM (ENCODE_DALVIK_REG | ENCODE_LITERAL | ENCODE_HEAP_REF |
ENCODE_MUST_NOT_ALIAS)`. -/
def ENCODE_MEM : Nat :=
  ENCODE_DALVIK_REG ||| ENCODE_LITERAL ||| ENCODE_HEAP_REF ||| ENCODE_MUST_NOT_ALIAS

/-- The six abstract-resource masks, from the lowest bit position to the highest:
condition codes, FP status, Dalvik register, literal pool, heap reference, must-not-alias. -/
def abstractResourceMasks : List Nat :=
  [ENCODE_CCODE, ENCODE_FP_STATUS, ENCODE_DALVIK_REG, ENCODE_LITERAL, ENCODE_HEAP_REF,
   ENCODE_MUST_NOT_ALIAS]

/-- The six abstract-resource bit positions, in the same order. -/
def abstractResourcePositions : List Nat :=
  [kCCode, kFPStatus, kDalvikReg, kLiteral, kHeapRef, kMustNotAlias]

/-! ## LIR pseudo opcodes (compiler_ir.h:240-260) -/

/-- Enumeration `enum LIRPseudoOpcode`: shared pseudo opcodes - must be < 0. -/
inductive LIRPseudoOpcode where
  | kPseudoExportedPC
  | kPseudoSafepointPC
  | kPseudoIntrinsicRetry
  | kPseudoSuspendTarget
  | kPseudoThrowTarget
  | kPseudoCaseLabel
  | kPseudoMethodEntry
  | kPseudoMethodExit
  | kPseudoBarrier
  | kPseudoExtended
  | kPseudoSSARep
  | kPseudoEntryBlock
  | kPseudoExitBlock
  | kPseudoTargetLabel
  | kPseudoDalvikByteCodeBoundary
  | kPseudoPseudoAlign4
  | kPseudoEHBlockLabel
  | kPseudoNormalBlockLabel
  deriving DecidableEq, Repr, Fintype

/-- The integer value the header assigns to each pseudo opcode. -/
def LIRPseudoOpcode.toInt : LIRPseudoOpcode → Int
  | .kPseudoExportedPC => -18
  | .kPseudoSafepointPC => -17
  | .kPseudoIntrinsicRetry => -16
  | .kPseudoSuspendTarget => -15
  | .kPseudoThrowTarget => -14
  | .kPseudoCaseLabel => -13
  | .kPseudoMethodEntry => -12
  | .kPseudoMethodExit => -11
  | .kPseudoBarrier => -10
  | .kPseudoExtended => -9
  | .kPseudoSSARep => -8
  | .kPseudoEntryBlock => -7
  | .kPseudoExitBlock => -6
  | .kPseudoTargetLabel => -5
  | .kPseudoDalvikByteCodeBoundary => -4
  | .kPseudoPseudoAlign4 => -3
  | .kPseudoEHBlockLabel => -2
  | .kPseudoNormalBlockLabel => -1

/-! ## Register locations and their 3-bit bit-fields (compiler_ir.h:71-101) -/

/-- Enumeration `enum RegLocationType`. -/
inductive RegLocationType where
  | kLocDalvikFrame
  | kLocPhysReg
  | kLocCompilerTemp
  | kLocInvalid
  deriving DecidableEq, Repr, Fintype

/-- The integer value of each `RegLocationType` enumerator (`kLocDalvikFrame = 0`, the
others count up from it). -/
def RegLocationType.toInt : RegLocationType → Int
  | .kLocDalvikFrame => 0
  | .kLocPhysReg => 1
  | .kLocCompilerTemp => 2
  | .kLocInvalid => 3

/-- Storing an integer value in a bit-field of width 3 keeps its low three bits. -/
def storeBits3 (v : Int) : Nat := (v % 2 ^ 3).toNat

/-- Reading a 3-bit field as an unsigned number (0..7). -/
def loadUnsigned3 (bits : Nat) : Int := ((bits % 2 ^ 3 : Nat) : Int)

/-- Reading a 3-bit field as a signed two's-complement number (-4..3). -/
def loadSigned3 (bits : Nat) : Int :=
  if bits % 2 ^ 3 < 2 ^ 2 then ((bits % 2 ^ 3 : Nat) : Int) else ((bits % 2 ^ 3 : Nat) : Int) - 2 ^ 3

/-- Structure `struct PromotionMap`; the two `:3` bit-fields hold raw bits. -/
structure PromotionMap where
  coreLocation : Nat
  coreReg : Nat
  fpLocation : Nat
  fpReg : Nat
  firstInPair : Bool
  deriving DecidableEq, Repr

/-- Structure `struct RegLocation`; `location` is the `:3` bit-field (raw bits), the one-bit flags
are booleans. -/
structure RegLocation where
  location : Nat
  wide : Bool
  defined : Bool
  isConst : Bool
  fp : Bool
  core : Bool
  ref : Bool
  highWord : Bool
  home : Bool
  lowReg : Nat
  highReg : Nat
  sRegLow : Int
  origSReg : Int
  deriving DecidableEq, Repr

/-- The assignment `loc.location = t`. -/
def RegLocation.setLocation (loc : RegLocation) (t : RegLocationType) : RegLocation :=
  { loc with location := storeBits3 t.toInt }

/-- The assignment `map.coreLocation = t`. -/
def PromotionMap.setCoreLocation (map : PromotionMap) (t : RegLocationType) : PromotionMap :=
  { map with coreLocation := storeBits3 t.toInt }

/-- The assignment `map.fpLocation = t`. -/
def PromotionMap.setFpLocation (map : PromotionMap) (t : RegLocationType) : PromotionMap :=
  { map with fpLocation := storeBits3 t.toInt }

/-! ## Alias info encoding (compiler_ir.h:38-39, 185-189) -/

/-- Definition `#define VREG_NUM_WIDTH 16`: minimum field size to contain a Dalvik vReg number. -/
def VREG_NUM_WIDTH : Nat := 16

/-- Definition `#define DECODE_ALIAS_INFO_WIDE_FLAG (0x80000000)`. -/
def DECODE_ALIAS_INFO_WIDE_FLAG : Nat := 0x80000000

/-- Definition `#define DECODE_ALIAS_INFO_REG(X) (X & 0xffff)`, on a 32-bit pattern. -/
def DECODE_ALIAS_INFO_REG (x : Nat) : Nat := (x % 2 ^ 32) &&& 0xffff

/-- Definition `#define DECODE_ALIAS_INFO_WIDE(X) ((X & DECODE_ALIAS_INFO_WIDE_FLAG) ? 1 : 0)`. -/
def DECODE_ALIAS_INFO_WIDE (x : Nat) : Nat :=
  if (x % 2 ^ 32) &&& DECODE_ALIAS_INFO_WIDE_FLAG ≠ 0 then 1 else 0

/-- Definition `#define ENCODE_ALIAS_INFO(REG, ISWIDE) (REG | (ISWIDE ? DECODE_ALIAS_INFO_WIDE_FLAG : 0))`,
in 32-bit arithmetic. -/
def ENCODE_ALIAS_INFO (reg : Nat) (isWide : Bool) : Nat :=
  ((reg % 2 ^ 32) ||| (if isWide then DECODE_ALIAS_INFO_WIDE_FLAG else 0)) % 2 ^ 32

/-! ## MIR optimization flags (compiler_ir.h:281-303) -/

/-- Enumeration `enum MIROptimizationFlagPositons`. -/
inductive MIROptimizationFlagPositons where
  | kMIRIgnoreNullCheck
  | kMIRNullCheckOnly
  | kMIRIgnoreRangeCheck
  | kMIRRangeCheckOnly
  | kMIRInlined
  | kMIRInlinedPred
  | kMIRCallee
  | kMIRIgnoreSuspendCheck
  | kMIRDup
  | kMIRMark
  deriving DecidableEq, Repr, Fintype

/-- The value of each position enumerator (`kMIRIgnoreNullCheck = 0`, then counting up). -/
def MIROptimizationFlagPositons.toNat : MIROptimizationFlagPositons → Nat
  | .kMIRIgnoreNullCheck => 0
  | .kMIRNullCheckOnly => 1
  | .kMIRIgnoreRangeCheck => 2
  | .kMIRRangeCheckOnly => 3
  | .kMIRInlined => 4
  | .kMIRInlinedPred => 5
  | .kMIRCallee => 6
  | .kMIRIgnoreSuspendCheck => 7
  | .kMIRDup => 8
  | .kMIRMark => 9

/-- The expression `1 << pos` in 32-bit `int` arithmetic, as a bit pattern. -/
def shl1 (pos : Nat) : Nat := (1 <<< pos) % 2 ^ 32

/-- Definition `#define MIR_IGNORE_NULL_CHECK (1 << kMIRIgnoreNullCheck)`. -/
def MIR_IGNORE_NULL_CHECK : Nat := shl1 MIROptimizationFlagPositons.kMIRIgnoreNullCheck.toNat
/-- Definition `#define MIR_NULL_CHECK_ONLY (1 << kMIRNullCheckOnly)`. -/
def MIR_NULL_CHECK_ONLY : Nat := shl1 MIROptimizationFlagPositons.kMIRNullCheckOnly.toNat
/-- Definition `#define MIR_IGNORE_RANGE_CHECK (1 << kMIRIgnoreRangeCheck)`. -/
def MIR_IGNORE_RANGE_CHECK : Nat := shl1 MIROptimizationFlagPositons.kMIRIgnoreRangeCheck.toNat
/-- Definition `#define MIR_RANGE_CHECK_ONLY (1 << kMIRRangeCheckOnly)`. -/
def MIR_RANGE_CHECK_ONLY : Nat := shl1 MIROptimizationFlagPositons.kMIRRangeCheckOnly.toNat
/-- Definition `#define MIR_INLINED (1 << kMIRInlined)`. -/
def MIR_INLINED : Nat := shl1 MIROptimizationFlagPositons.kMIRInlined.toNat
/-- Definition `#define MIR_INLINED_PRED (1 << kMIRInlinedPred)`. -/
def MIR_INLINED_PRED : Nat := shl1 MIROptimizationFlagPositons.kMIRInlinedPred.toNat
/-- Definition `#define MIR_CALLEE (1 << kMIRCallee)`. -/
def MIR_CALLEE : Nat := shl1 MIROptimizationFlagPositons.kMIRCallee.toNat
/-- Definition `#define MIR_IGNORE_SUSPEND_CHECK (1 << kMIRIgnoreSuspendCheck)`. -/
def MIR_IGNORE_SUSPEND_CHECK : Nat := shl1 MIROptimizationFlagPositons.kMIRIgnoreSuspendCheck.toNat
/-- Definition `#define MIR_DUP (1 << kMIRDup)`. -/
def MIR_DUP : Nat := shl1 MIROptimizationFlagPositons.kMIRDup.toNat
/-- Definition `#define MIR_MARK (1 << kMIRMark)`. -/
def MIR_MARK : Nat := shl1 MIROptimizationFlagPositons.kMIRMark.toNat

/-- The `MIR_*` mask that the header defines for each position. -/
def MIROptimizationFlagPositons.mask : MIROptimizationFlagPositons → Nat
  | .kMIRIgnoreNullCheck => MIR_IGNORE_NULL_CHECK
  | .kMIRNullCheckOnly => MIR_NULL_CHECK_ONLY
  | .kMIRIgnoreRangeCheck => MIR_IGNORE_RANGE_CHECK
  | .kMIRRangeCheckOnly => MIR_RANGE_CHECK_ONLY
  | .kMIRInlined => MIR_INLINED
  | .kMIRInlinedPred => MIR_INLINED_PRED
  | .kMIRCallee => MIR_CALLEE
  | .kMIRIgnoreSuspendCheck => MIR_IGNORE_SUSPEND_CHECK
  | .kMIRDup => MIR_DUP
  | .kMIRMark => MIR_MARK

/-- The ten positions in declaration order. -/
def mirFlagPositions : List MIROptimizationFlagPositons :=
  [.kMIRIgnoreNullCheck, .kMIRNullCheckOnly, .kMIRIgnoreRangeCheck, .kMIRRangeCheckOnly,
   .kMIRInlined, .kMIRInlinedPred, .kMIRCallee, .kMIRIgnoreSuspendCheck, .kMIRDup, .kMIRMark]

/-- Setting a flag in `optimizationFlags`: `f |= A`, as 32-bit patterns. -/
def setMirFlag (f a : Nat) : Nat := ((f % 2 ^ 32) ||| (a % 2 ^ 32)) % 2 ^ 32

/-- Clearing a flag in `optimizationFlags`: `f &= ~A`, as 32-bit patterns. -/
def clearMirFlag (f a : Nat) : Nat := (f % 2 ^ 32) &&& not32 a

/-- Testing a flag in `optimizationFlags`: `f & B`, as 32-bit patterns. -/
def testMirFlag (f b : Nat) : Nat := (f % 2 ^ 32) &&& (b % 2 ^ 32)

/-! ## Special-case method patterns (compiler_ir.h:817-868) -/

/-- Definition `#define MAX_PATTERN_LEN 5`. -/
def MAX_PATTERN_LEN : Nat := 5

/-- Modelled from the spec: `Instruction::Code` is declared in dex_instruction.h, which is
not under src. Only the enumerators that `specialPatterns` names are listed, together with
`NOP`, the enumerator of value 0 that an aggregate initializer puts in every array slot it
does not list. -/
inductive Code where
  | NOP
  | RETURN_VOID
  | RETURN
  | RETURN_WIDE
  | RETURN_OBJECT
  | CONST_4
  | CONST_16
  | CONST
  | IGET
  | IGET_WIDE
  | IGET_OBJECT
  | IGET_BOOLEAN
  | IGET_BYTE
  | IGET_CHAR
  | IGET_SHORT
  | IPUT
  | IPUT_WIDE
  | IPUT_OBJECT
  | IPUT_BOOLEAN
  | IPUT_BYTE
  | IPUT_CHAR
  | IPUT_SHORT
  deriving DecidableEq, Repr

/-- Enumeration `enum SpecialCaseHandler`. -/
inductive SpecialCaseHandler where
  | kNoHandler
  | kNullMethod
  | kConstFunction
  | kIGet
  | kIGetBoolean
  | kIGetObject
  | kIGetByte
  | kIGetChar
  | kIGetShort
  | kIGetWide
  | kIPut
  | kIPutBoolean
  | kIPutObject
  | kIPutByte
  | kIPutChar
  | kIPutShort
  | kIPutWide
  | kIdentity
  deriving DecidableEq, Repr

/-- Structure `struct CodePattern`: `opcodes` is the array of `MAX_PATTERN_LEN` opcodes. -/
structure CodePattern where
  opcodes : List Code
  handlerCode : SpecialCaseHandler
  deriving DecidableEq, Repr

/-- Aggregate initialization of a `CodePattern` from a brace list of opcodes: the listed
opcodes fill the first slots and the remaining slots of the array are zero, i.e. `NOP`. -/
def CodePattern.init (listed : List Code) (handler : SpecialCaseHandler) : CodePattern :=
  { opcodes := listed ++ List.replicate (MAX_PATTERN_LEN - listed.length) Code.NOP,
    handlerCode := handler }

/-- Table `static const CodePattern specialPatterns[]`. -/
def specialPatterns : List CodePattern :=
  [ CodePattern.init [.RETURN_VOID] .kNullMethod,
    CodePattern.init [.CONST, .RETURN] .kConstFunction,
    CodePattern.init [.CONST_4, .RETURN] .kConstFunction,
    CodePattern.init [.CONST_4, .RETURN_OBJECT] .kConstFunction,
    CodePattern.init [.CONST_16, .RETURN] .kConstFunction,
    CodePattern.init [.IGET, .RETURN] .kIGet,
    CodePattern.init [.IGET_BOOLEAN, .RETURN] .kIGetBoolean,
    CodePattern.init [.IGET_OBJECT, .RETURN_OBJECT] .kIGetObject,
    CodePattern.init [.IGET_BYTE, .RETURN] .kIGetByte,
    CodePattern.init [.IGET_CHAR, .RETURN] .kIGetChar,
    CodePattern.init [.IGET_SHORT, .RETURN] .kIGetShort,
    CodePattern.init [.IGET_WIDE, .RETURN_WIDE] .kIGetWide,
    CodePattern.init [.IPUT, .RETURN_VOID] .kIPut,
    CodePattern.init [.IPUT_BOOLEAN, .RETURN_VOID] .kIPutBoolean,
    CodePattern.init [.IPUT_OBJECT, .RETURN_VOID] .kIPutObject,
    CodePattern.init [.IPUT_BYTE, .RETURN_VOID] .kIPutByte,
    CodePattern.init [.IPUT_CHAR, .RETURN_VOID] .kIPutChar,
    CodePattern.init [.IPUT_SHORT, .RETURN_VOID] .kIPutShort,
    CodePattern.init [.IPUT_WIDE, .RETURN_VOID] .kIPutWide,
    CodePattern.init [.RETURN] .kIdentity,
    CodePattern.init [.RETURN_OBJECT] .kIdentity,
    CodePattern.init [.RETURN_WIDE] .kIdentity ]

/-- The opcode sequence of a pattern: the slots in use, up to the first unset (`NOP`) one. -/
def CodePattern.sequence (p : CodePattern) : List Code :=
  p.opcodes.takeWhile (fun op => op != Code.NOP)

/-- Modelled from the spec: the matcher that reads `specialPatterns` is not under src. A
method, given as its opcode sequence, is classified by the handler of the first table
entry whose opcode sequence is the method's, and by `kNoHandler` when no entry matches. -/
def lookupSpecialCase (table : List CodePattern) (insns : List Code) : SpecialCaseHandler :=
  match table.find? (fun p => p.sequence == insns) with
  | some p => p.handlerCode
  | none => SpecialCaseHandler.kNoHandler

/-! ## The LIR chain (compiler_ir.h:221-238, 389-480, 878-882) -/

/-- Structure `struct LIR`. The pointers `next`, `prev` and `target` are addresses of other `LIR`
objects, `none` being `NULL`. -/
structure LIR where
  offset : Int
  dalvikOffset : Int
  next : Option Nat
  prev : Option Nat
  target : Option Nat
  opcode : Int
  operands : List Int
  isNop : Bool
  pcRelFixup : Bool
  size : Nat
  aliasInfo : Int
  useMask : Nat
  defMask : Nat
  deriving DecidableEq, Repr

/-- Enumeration `enum AssemblerStatus`. -/
inductive AssemblerStatus where
  | kSuccess
  | kRetryAll
  deriving DecidableEq, Repr

/-- Structure `struct CompilationUnit`: the scalar and pointer members that the constructor
initializes (members of the enumeration types `InvokeType` and `InstructionSet`, which are
declared outside src, and the container members are left out). -/
structure CompilationUnit where
  numBlocks : Int
  compiler : Option Nat
  class_linker : Option Nat
  dex_file : Option Nat
  class_loader : Option Nat
  method_idx : Nat
  code_item : Option Nat
  access_flags : Nat
  shorty : Option Nat
  firstLIRInsn : Option Nat
  lastLIRInsn : Option Nat
  literalList : Option Nat
  methodLiteralList : Option Nat
  codeLiteralList : Option Nat
  disableOpt : Nat
  enableDebug : Nat
  dataOffset : Int
  totalSize : Int
  assemblerStatus : AssemblerStatus
  assemblerRetries : Int
  printMe : Bool
  hasLoop : Bool
  hasInvoke : Bool
  qdMode : Bool
  regPool : Option Nat
  numSSARegs : Int
  ssaBaseVRegs : Option Nat
  ssaSubscripts : Option Nat
  ssaStrings : Option Nat
  vRegToSSAMap : Option Nat
  SSALastDefs : Option Nat
  isConstantV : Option Nat
  constantValues : Option Nat
  phiAliasMap : Option Nat
  phiList : Option Nat
  regLocation : Option Nat
  promotionMap : Option Nat
  methodSReg : Int
  numReachableBlocks : Int
  numDalvikRegisters : Int
  entryBlock : Option Nat
  exitBlock : Option Nat
  curBlock : Option Nat
  iDomList : Option Nat
  tryBlockAddr : Option Nat
  defBlockMatrix : Option Nat
  tempBlockV : Option Nat
  tempDalvikRegisterV : Option Nat
  tempSSARegisterV : Option Nat
  tempSSABlockIdV : Option Nat
  blockLabelList : Option Nat
  numIns : Int
  numOuts : Int
  numRegs : Int
  numCoreSpills : Int
  numFPSpills : Int
  numCompilerTemps : Int
  frameSize : Int
  coreSpillMask : Nat
  fpSpillMask : Nat
  attrs : Nat
  currentDalvikOffset : Int
  insns : Option Nat
  insnsSize : Nat
  disableDataflow : Bool
  defCount : Int
  compilerFlipMatch : Bool
  arenaHead : Option Nat
  currentArena : Option Nat
  numArenaBlocks : Int
  mstats : Option Nat
  checkstats : Option Nat
  genBitcode : Bool
  context : Option Nat
  module : Option Nat
  func : Option Nat
  intrinsic_helper : Option Nat
  irb : Option Nat
  placeholderBB : Option Nat
  entryBB : Option Nat
  entryTargetBB : Option Nat
  tempName : Int
  numShadowFrameEntries : Int
  shadowMap : Option Nat
  liveSReg : Int
  opcodeCount : Option Nat

/-- The constructor `CompilationUnit::CompilationUnit()`: its member initializer list. -/
def CompilationUnit.ctor : CompilationUnit :=
  { numBlocks := 0
    compiler := none
    class_linker := none
    dex_file := none
    class_loader := none
    method_idx := 0
    code_item := none
    access_flags := 0
    shorty := none
    firstLIRInsn := none
    lastLIRInsn := none
    literalList := none
    methodLiteralList := none
    codeLiteralList := none
    disableOpt := 0
    enableDebug := 0
    dataOffset := 0
    totalSize := 0
    assemblerStatus := AssemblerStatus.kSuccess
    assemblerRetries := 0
    printMe := false
    hasLoop := false
    hasInvoke := false
    qdMode := false
    regPool := none
    numSSARegs := 0
    ssaBaseVRegs := none
    ssaSubscripts := none
    ssaStrings := none
    vRegToSSAMap := none
    SSALastDefs := none
    isConstantV := none
    constantValues := none
    phiAliasMap := none
    phiList := none
    regLocation := none
    promotionMap := none
    methodSReg := 0
    numReachableBlocks := 0
    numDalvikRegisters := 0
    entryBlock := none
    exitBlock := none
    curBlock := none
    iDomList := none
    tryBlockAddr := none
    defBlockMatrix := none
    tempBlockV := none
    tempDalvikRegisterV := none
    tempSSARegisterV := none
    tempSSABlockIdV := none
    blockLabelList := none
    numIns := 0
    numOuts := 0
    numRegs := 0
    numCoreSpills := 0
    numFPSpills := 0
    numCompilerTemps := 0
    frameSize := 0
    coreSpillMask := 0
    fpSpillMask := 0
    attrs := 0
    currentDalvikOffset := 0
    insns := none
    insnsSize := 0
    disableDataflow := false
    defCount := 0
    compilerFlipMatch := false
    arenaHead := none
    currentArena := none
    numArenaBlocks := 0
    mstats := none
    checkstats := none
    genBitcode := false
    context := none
    module := none
    func := none
    intrinsic_helper := none
    irb := none
    placeholderBB := none
    entryBB := none
    entryTargetBB := none
    tempName := 0
    numShadowFrameEntries := 0
    shadowMap := none
    liveSReg := 0
    opcodeCount := none }

/-- The memory holding the `LIR` objects of a compilation, by address. -/
abbrev LIRMem := Nat → LIR

/-- The store `a->next = v`. -/
def setNext (mem : LIRMem) (a : Nat) (v : Option Nat) : LIRMem :=
  fun x => if x = a then { mem x with next := v } else mem x

/-- The store `a->prev = v`. -/
def setPrev (mem : LIRMem) (a : Nat) (v : Option Nat) : LIRMem :=
  fun x => if x = a then { mem x with prev := v } else mem x

/-- Boolean check that the addresses in the list are doubly linked in this order: the
first has `prev = p`, each `next` is the following element, each `prev` the preceding
one, and the last has `next = NULL`. -/
def linkedB (mem : LIRMem) : Option Nat → List Nat → Bool
  | _, [] => true
  | p, a :: rest =>
    decide ((mem a).prev = p) && decide ((mem a).next = rest.head?) && linkedB mem (some a) rest

/-- The list is a doubly linked run starting after `p` (`NEXT_LIR` / `PREV_LIR` agree). -/
def Linked (mem : LIRMem) (p : Option Nat) (l : List Nat) : Prop := linkedB mem p l = true

/-- The compilation unit's chain is the list `l`: no instruction occurs twice,
`firstLIRInsn` and `lastLIRInsn` are its two ends, and its elements are doubly linked. -/
def IsChain (mem : LIRMem) (cUnit : CompilationUnit) (l : List Nat) : Prop :=
  l.Nodup ∧ cUnit.firstLIRInsn = l.head? ∧ cUnit.lastLIRInsn = l.getLast? ∧ Linked mem none l

instance (mem : LIRMem) (p : Option Nat) (l : List Nat) : Decidable (Linked mem p l) :=
  inferInstanceAs (Decidable (linkedB mem p l = true))

instance (mem : LIRMem) (cUnit : CompilationUnit) (l : List Nat) :
    Decidable (IsChain mem cUnit l) :=
  inferInstanceAs (Decidable (_ ∧ _ ∧ _ ∧ _))

/-- Follow `next` pointers from `start`, for at most `fuel` instructions. -/
def walk (mem : LIRMem) : Nat → Option Nat → List Nat
  | 0, _ => []
  | _ + 1, none => []
  | fuel + 1, some a => a :: walk mem fuel (mem a).next

/-- The instruction sequence of the unit: the traversal from `firstLIRInsn`. -/
def lirSequence (mem : LIRMem) (cUnit : CompilationUnit) (fuel : Nat) : List Nat :=
  walk mem fuel cUnit.firstLIRInsn

/-- The return instructions among the opcodes the table uses: `RETURN_VOID`, `RETURN`,
`RETURN_OBJECT` and `RETURN_WIDE`. -/
def Code.isReturn : Code → Bool
  | .RETURN_VOID => true
  | .RETURN => true
  | .RETURN_OBJECT => true
  | .RETURN_WIDE => true
  | _ => false

/-! ## Extended MIR opcodes (compiler_ir.h:262-277) -/

/-- Enumerator `kMirOpFirst = kNumPackedOpcodes` of `enum ExtendedMIROpcode`. The constant
`kNumPackedOpcodes` is declared outside src and is a parameter of every enumerator. -/
def kMirOpFirst (kNumPackedOpcodes : Nat) : Nat := kNumPackedOpcodes
/-- Enumerator `kMirOpPhi = kMirOpFirst`. -/
def kMirOpPhi (kNumPackedOpcodes : Nat) : Nat := kMirOpFirst kNumPackedOpcodes
/-- Enumerator `kMirOpCopy`, one more than the enumerator before it. -/
def kMirOpCopy (kNumPackedOpcodes : Nat) : Nat := kMirOpPhi kNumPackedOpcodes + 1
/-- Enumerator `kMirOpFusedCmplFloat`, one more than the enumerator before it. -/
def kMirOpFusedCmplFloat (kNumPackedOpcodes : Nat) : Nat := kMirOpCopy kNumPackedOpcodes + 1
/-- Enumerator `kMirOpFusedCmpgFloat`, one more than the enumerator before it. -/
def kMirOpFusedCmpgFloat (kNumPackedOpcodes : Nat) : Nat :=
  kMirOpFusedCmplFloat kNumPackedOpcodes + 1
/-- Enumerator `kMirOpFusedCmplDouble`, one more than the enumerator before it. -/
def kMirOpFusedCmplDouble (kNumPackedOpcodes : Nat) : Nat :=
  kMirOpFusedCmpgFloat kNumPackedOpcodes + 1
/-- Enumerator `kMirOpFusedCmpgDouble`, one more than the enumerator before it. -/
def kMirOpFusedCmpgDouble (kNumPackedOpcodes : Nat) : Nat :=
  kMirOpFusedCmplDouble kNumPackedOpcodes + 1
/-- Enumerator `kMirOpFusedCmpLong`, one more than the enumerator before it. -/
def kMirOpFusedCmpLong (kNumPackedOpcodes : Nat) : Nat :=
  kMirOpFusedCmpgDouble kNumPackedOpcodes + 1
/-- Enumerator `kMirOpNop`, one more than the enumerator before it. -/
def kMirOpNop (kNumPackedOpcodes : Nat) : Nat := kMirOpFusedCmpLong kNumPackedOpcodes + 1
/-- Enumerator `kMirOpNullCheck`, one more than the enumerator before it. -/
def kMirOpNullCheck (kNumPackedOpcodes : Nat) : Nat := kMirOpNop kNumPackedOpcodes + 1
/-- Enumerator `kMirOpRangeCheck`, one more than the enumerator before it. -/
def kMirOpRangeCheck (kNumPackedOpcodes : Nat) : Nat := kMirOpNullCheck kNumPackedOpcodes + 1
/-- Enumerator `kMirOpDivZeroCheck`, one more than the enumerator before it. -/
def kMirOpDivZeroCheck (kNumPackedOpcodes : Nat) : Nat :=
  kMirOpRangeCheck kNumPackedOpcodes + 1
/-- Enumerator `kMirOpCheck`, one more than the enumerator before it. -/
def kMirOpCheck (kNumPackedOpcodes : Nat) : Nat := kMirOpDivZeroCheck kNumPackedOpcodes + 1
/-- Enumerator `kMirOpLast`, one more than the enumerator before it. -/
def kMirOpLast (kNumPackedOpcodes : Nat) : Nat := kMirOpCheck kNumPackedOpcodes + 1

/-- The twelve extended MIR opcodes `kMirOpPhi .. kMirOpCheck`, in declaration order. -/
def extendedMIROpcodes (kNumPackedOpcodes : Nat) : List Nat :=
  [kMirOpPhi kNumPackedOpcodes, kMirOpCopy kNumPackedOpcodes,
   kMirOpFusedCmplFloat kNumPackedOpcodes, kMirOpFusedCmpgFloat kNumPackedOpcodes,
   kMirOpFusedCmplDouble kNumPackedOpcodes, kMirOpFusedCmpgDouble kNumPackedOpcodes,
   kMirOpFusedCmpLong kNumPackedOpcodes, kMirOpNop kNumPackedOpcodes,
   kMirOpNullCheck kNumPackedOpcodes, kMirOpRangeCheck kNumPackedOpcodes,
   kMirOpDivZeroCheck kNumPackedOpcodes, kMirOpCheck kNumPackedOpcodes]

/-! ## Debug knobs of a compilation unit (compiler_ir.h:31-36) -/

/-- Definition `#define SLOW_FIELD_PATH (cUnit->enableDebug & (1 << kDebugSlowFieldPath))`.
The bit position `kDebugSlowFieldPath` is declared outside src and is a parameter. -/
def SLOW_FIELD_PATH (cUnit : CompilationUnit) (kDebugSlowFieldPath : Nat) : Nat :=
  (cUnit.enableDebug % 2 ^ 32) &&& shl1 kDebugSlowFieldPath

/-- Definition `#define SLOW_INVOKE_PATH (cUnit->enableDebug & (1 << kDebugSlowInvokePath))`.
The bit position `kDebugSlowInvokePath` is declared outside src and is a parameter. -/
def SLOW_INVOKE_PATH (cUnit : CompilationUnit) (kDebugSlowInvokePath : Nat) : Nat :=
  (cUnit.enableDebug % 2 ^ 32) &&& shl1 kDebugSlowInvokePath

/-- Definition `#define SLOW_STRING_PATH (cUnit->enableDebug & (1 << kDebugSlowStringPath))`.
The bit position `kDebugSlowStringPath` is declared outside src and is a parameter. -/
def SLOW_STRING_PATH (cUnit : CompilationUnit) (kDebugSlowStringPath : Nat) : Nat :=
  (cUnit.enableDebug % 2 ^ 32) &&& shl1 kDebugSlowStringPath

/-- Definition `#define SLOW_TYPE_PATH (cUnit->enableDebug & (1 << kDebugSlowTypePath))`.
The bit position `kDebugSlowTypePath` is declared outside src and is a parameter. -/
def SLOW_TYPE_PATH (cUnit : CompilationUnit) (kDebugSlowTypePath : Nat) : Nat :=
  (cUnit.enableDebug % 2 ^ 32) &&& shl1 kDebugSlowTypePath

/-- Definition `#define EXERCISE_SLOWEST_STRING_PATH (cUnit->enableDebug &
(1 << kDebugSlowestStringPath))`. The bit position `kDebugSlowestStringPath` is declared
outside src and is a parameter. -/
def EXERCISE_SLOWEST_STRING_PATH (cUnit : CompilationUnit) (kDebugSlowestStringPath : Nat) :
    Nat :=
  (cUnit.enableDebug % 2 ^ 32) &&& shl1 kDebugSlowestStringPath

/-! ## Helper lemmas -/

theorem and_lor_distrib_right (a b c : Nat) : (a ||| b) &&& c = (a &&& c) ||| (b &&& c) := by
  rw [Nat.and_comm, Nat.and_or_distrib_left, Nat.and_comm c a, Nat.and_comm c b]

theorem lor_eq_zero_iff {a b : Nat} : a ||| b = 0 ↔ a = 0 ∧ b = 0 := by
  constructor
  · intro h
    have key : ∀ i, (a.testBit i || b.testBit i) = false := by
      intro i
      have := congrArg (fun n => n.testBit i) h
      simpa using this
    constructor <;> apply Nat.eq_of_testBit_eq <;> intro i <;>
      have := key i <;> simp_all
  · rintro ⟨rfl, rfl⟩
    simp

/-! ### Linked runs -/

@[simp] theorem setNext_next (mem : LIRMem) (a x : Nat) (v : Option Nat) :
    (setNext mem a v x).next = if x = a then v else (mem x).next := by
  unfold setNext; split <;> rfl

@[simp] theorem setNext_prev (mem : LIRMem) (a x : Nat) (v : Option Nat) :
    (setNext mem a v x).prev = (mem x).prev := by
  unfold setNext; split <;> rfl

@[simp] theorem setPrev_prev (mem : LIRMem) (a x : Nat) (v : Option Nat) :
    (setPrev mem a v x).prev = if x = a then v else (mem x).prev := by
  unfold setPrev; split <;> rfl

@[simp] theorem setPrev_next (mem : LIRMem) (a x : Nat) (v : Option Nat) :
    (setPrev mem a v x).next = (mem x).next := by
  unfold setPrev; split <;> rfl

theorem linked_nil (mem : LIRMem) (p : Option Nat) : Linked mem p [] := rfl

/-- A lookup returns the handler of the one entry whose opcode sequence is the method's. -/
theorem lookup_of_unique {table : List CodePattern} {insns : List Code} {p : CodePattern}
    (hp : p ∈ table) (hseq : p.sequence = insns)
    (huniq : ∀ q ∈ table, q.sequence = insns → q = p) :
    lookupSpecialCase table insns = p.handlerCode := by
  unfold lookupSpecialCase
  cases hfind : table.find? (fun q => q.sequence == insns) with
  | none =>
    have := List.find?_eq_none.mp hfind p hp
    simp [hseq] at this
  | some q =>
    have hq : q ∈ table := List.mem_of_find?_eq_some hfind
    have hqs : q.sequence = insns := by
      have := List.find?_some hfind
      simpa using this
    rw [huniq q hq hqs]

/-- A lookup returns `kNoHandler` when no entry has the method's opcode sequence. -/
theorem lookup_of_none {table : List CodePattern} {insns : List Code}
    (hnone : ∀ q ∈ table, q.sequence ≠ insns) :
    lookupSpecialCase table insns = SpecialCaseHandler.kNoHandler := by
  unfold lookupSpecialCase
  have hfind : table.find? (fun q => q.sequence == insns) = none := by
    rw [List.find?_eq_none]
    intro q hq
    simpa using hnone q hq
  rw [hfind]

/-! ## Theorems -/

/-- C1 (counterexample): the initializer threshold is not higher than the general one. -/
theorem many_blocks_initializer_not_higher : ¬ (MANY_BLOCKS_INITIALIZER > MANY_BLOCKS) := by
  decide

/-- C1 (amended): the block-count threshold for recognized initializer-style methods,
`MANY_BLOCKS_INITIALIZER` = 1000, is lower than the threshold `MANY_BLOCKS` = 4000 that
applies to every other method. -/
theorem many_blocks_initializer_lower :
    MANY_BLOCKS_INITIALIZER = 1000 ∧ MANY_BLOCKS = 4000 ∧
      MANY_BLOCKS_INITIALIZER < MANY_BLOCKS := by
  decide

/-- C2: every `LIRPseudoOpcode` value is strictly negative, there are 18 pseudo opcodes,
their values are pairwise distinct and are exactly the integers -18..-1, so no pseudo
opcode equals an architecture opcode `n >= 0`; the block-label, exported-PC,
safepoint-PC, method entry/exit and suspend/throw target markers are among them. -/
theorem pseudo_opcodes_negative_range :
    (∀ op : LIRPseudoOpcode, op.toInt < 0) ∧
    Fintype.card LIRPseudoOpcode = 18 ∧
    Function.Injective LIRPseudoOpcode.toInt ∧
    (∀ v : Int, (∃ op : LIRPseudoOpcode, op.toInt = v) ↔ -18 ≤ v ∧ v ≤ -1) ∧
    (∀ (op : LIRPseudoOpcode) (n : Int), 0 ≤ n → op.toInt ≠ n) ∧
    [LIRPseudoOpcode.kPseudoNormalBlockLabel, .kPseudoEHBlockLabel, .kPseudoExportedPC,
      .kPseudoSafepointPC, .kPseudoMethodEntry, .kPseudoMethodExit, .kPseudoSuspendTarget,
      .kPseudoThrowTarget].map LIRPseudoOpcode.toInt = [-1, -2, -18, -17, -12, -11, -15, -14] := by
  have hneg : ∀ op : LIRPseudoOpcode, op.toInt < 0 := by
    intro op; cases op <;> decide
  refine ⟨hneg, rfl, ?_, ?_, ?_, rfl⟩
  · intro a b h
    cases a <;> cases b <;> first | rfl | (exact absurd h (by decide))
  · intro v
    constructor
    · rintro ⟨op, rfl⟩
      cases op <;> decide
    · rintro ⟨h1, h2⟩
      interval_cases v
      · exact ⟨.kPseudoExportedPC, rfl⟩
      · exact ⟨.kPseudoSafepointPC, rfl⟩
      · exact ⟨.kPseudoIntrinsicRetry, rfl⟩
      · exact ⟨.kPseudoSuspendTarget, rfl⟩
      · exact ⟨.kPseudoThrowTarget, rfl⟩
      · exact ⟨.kPseudoCaseLabel, rfl⟩
      · exact ⟨.kPseudoMethodEntry, rfl⟩
      · exact ⟨.kPseudoMethodExit, rfl⟩
      · exact ⟨.kPseudoBarrier, rfl⟩
      · exact ⟨.kPseudoExtended, rfl⟩
      · exact ⟨.kPseudoSSARep, rfl⟩
      · exact ⟨.kPseudoEntryBlock, rfl⟩
      · exact ⟨.kPseudoExitBlock, rfl⟩
      · exact ⟨.kPseudoTargetLabel, rfl⟩
      · exact ⟨.kPseudoDalvikByteCodeBoundary, rfl⟩
      · exact ⟨.kPseudoPseudoAlign4, rfl⟩
      · exact ⟨.kPseudoEHBlockLabel, rfl⟩
      · exact ⟨.kPseudoNormalBlockLabel, rfl⟩
  · intro op n hn h
    have := hneg op
    omega

/-- C3: the special SSA names live in a negative namespace: `SSA_METHOD_BASEREG` is -2 and,
for every `k` with `0 <= k < 2^31 - 3`, the `k`-th compiler-temp base name
`SSA_CTEMP_BASEREG - k` is computed without wrap-around, is a negative 32-bit int, differs
from `INVALID_SREG` and from `SSA_METHOD_BASEREG`, differs from the `j`-th one for every
other index `j` in range, and so no special name equals a non-negative SSA name. -/
theorem ssa_special_names_disjoint (k j : Nat) (hk : k < 2 ^ 31 - 3) (hj : j < 2 ^ 31 - 3) :
    INVALID_SREG = -1 ∧ SSA_METHOD_BASEREG = -2 ∧ SSA_CTEMP_BASEREG = -3 ∧
    ssaCTempBaseReg k = -3 - (k : Int) ∧
    (-(2 ^ 31) ≤ ssaCTempBaseReg k ∧ ssaCTempBaseReg k < 0) ∧
    ssaCTempBaseReg k ≠ INVALID_SREG ∧
    ssaCTempBaseReg k ≠ SSA_METHOD_BASEREG ∧
    SSA_METHOD_BASEREG ≠ INVALID_SREG ∧
    (k ≠ j → ssaCTempBaseReg k ≠ ssaCTempBaseReg j) ∧
    (∀ s : Int, 0 ≤ s →
      s ≠ INVALID_SREG ∧ s ≠ SSA_METHOD_BASEREG ∧ s ≠ ssaCTempBaseReg k) := by
  have hbase : SSA_CTEMP_BASEREG = -3 := by decide
  have hval : ∀ i : Nat, i < 2 ^ 31 - 3 → ssaCTempBaseReg i = -3 - (i : Int) := by
    intro i hi
    simp only [ssaCTempBaseReg, hbase, wrapInt32]
    norm_num at hi ⊢
    omega
  have hk' := hval k hk
  have hj' := hval j hj
  norm_num at hk hj
  refine ⟨rfl, rfl, hbase, hk', ?_, ?_, ?_, by decide, ?_, ?_⟩
  · rw [hk']; norm_num; omega
  · rw [hk', INVALID_SREG]; omega
  · rw [hk', SSA_METHOD_BASEREG]; omega
  · intro hne; rw [hk', hj']; omega
  · intro s hs
    rw [hk', INVALID_SREG, SSA_METHOD_BASEREG]
    omega

/-- C3 witness: the theorem applied to the temps number 0 and 2^31 - 4 (the largest
index in range). -/
theorem ssa_special_names_disjoint_witness :
    ssaCTempBaseReg 0 = -3 ∧ ssaCTempBaseReg 2147483644 = -2147483647 ∧
      ssaCTempBaseReg 0 ≠ ssaCTempBaseReg 2147483644 := by
  have h := ssa_special_names_disjoint 0 2147483644 (by norm_num) (by norm_num)
  have h2 := ssa_special_names_disjoint 2147483644 0 (by norm_num) (by norm_num)
  exact ⟨h.2.2.2.1, h2.2.2.2.1, h.2.2.2.2.2.2.2.2.1 (by norm_num)⟩

/-- C4: in the 64-bit use/def mask the six abstract resources (condition codes, FP status,
Dalvik register, literal pool, heap reference, must-not-alias) are the single-bit masks
`2 ^ p` for the positions `p` = 58..63, pairwise distinct and pairwise disjoint;
`kLowestCommonResource` = 58 is the least of those positions; and no mask has a bit set
below `kLowestCommonResource`, so the bit `1 << r` of a physical register `r < 58`
collides with none of them. -/
theorem abstract_resources_are_high_bits :
    abstractResourcePositions = [58, 59, 60, 61, 62, 63] ∧
    abstractResourceMasks = abstractResourcePositions.map (fun p => 2 ^ p) ∧
    abstractResourceMasks.Nodup ∧
    abstractResourceMasks.Pairwise (fun a b => a &&& b = 0) ∧
    kLowestCommonResource = 58 ∧
    (∀ p ∈ abstractResourcePositions, kLowestCommonResource ≤ p) ∧
    kLowestCommonResource ∈ abstractResourcePositions ∧
    (∀ m ∈ abstractResourceMasks, m < 2 ^ 64 ∧
      ∀ r < kLowestCommonResource, m.testBit r = false ∧ shl1ULL r &&& m = 0) := by
  decide

/-- C5: `ENCODE_MEM` is exactly the union of the four abstract memory-location bits
(positions 60..63), so for every 64-bit mask `m`, `m & ENCODE_MEM` is non-zero iff `m`
intersects `ENCODE_DALVIK_REG`, `ENCODE_LITERAL`, `ENCODE_HEAP_REF` or
`ENCODE_MUST_NOT_ALIAS`; `ENCODE_MEM` contains neither `ENCODE_CCODE`, `ENCODE_FP_STATUS`
nor any bit below `kLowestCommonResource`; and `ENCODE_ALL` satisfies
`m & ENCODE_ALL = m`, hence conflicts with every non-empty mask. -/
theorem encode_mem_all_conservative (m : Nat) (hm : m < 2 ^ 64) :
    (∀ i, ENCODE_MEM.testBit i = true ↔ i = kDalvikReg ∨ i = kLiteral ∨ i = kHeapRef ∨
      i = kMustNotAlias) ∧
    (m &&& ENCODE_MEM ≠ 0 ↔
      (m &&& ENCODE_DALVIK_REG ≠ 0 ∨ m &&& ENCODE_LITERAL ≠ 0 ∨ m &&& ENCODE_HEAP_REF ≠ 0 ∨
        m &&& ENCODE_MUST_NOT_ALIAS ≠ 0)) ∧
    ENCODE_MEM &&& ENCODE_CCODE = 0 ∧
    ENCODE_MEM &&& ENCODE_FP_STATUS = 0 ∧
    (∀ r < kLowestCommonResource, ENCODE_MEM.testBit r = false) ∧
    ENCODE_ALL = 2 ^ 64 - 1 ∧
    m &&& ENCODE_ALL = m ∧
    (m ≠ 0 → m &&& ENCODE_ALL ≠ 0) := by
  have hall : ENCODE_ALL = 2 ^ 64 - 1 := by decide
  have hmall : m &&& ENCODE_ALL = m := by
    rw [hall, Nat.and_pow_two_sub_one_eq_mod, Nat.mod_eq_of_lt hm]
  refine ⟨?_, ?_, by decide, by decide, by decide, hall, hmall, ?_⟩
  · intro i
    by_cases hi : i < 64
    · revert i
      decide
    · have hlt : ENCODE_MEM < 2 ^ i :=
        lt_of_lt_of_le (show ENCODE_MEM < 2 ^ 64 by decide)
          (Nat.pow_le_pow_right (by norm_num) (by omega))
      rw [Nat.testBit_lt_two_pow hlt]
      simp only [kDalvikReg, kLiteral, kHeapRef, kMustNotAlias]
      constructor
      · intro h; exact absurd h (by simp)
      · intro h; omega
  · unfold ENCODE_MEM
    rw [Nat.and_or_distrib_left, Nat.and_or_distrib_left, Nat.and_or_distrib_left]
    rw [Ne, lor_eq_zero_iff, lor_eq_zero_iff, lor_eq_zero_iff]
    tauto
  · intro hne
    rw [hmall]
    exact hne

/-- C5 witness: the theorem applied to the mask with only the heap-reference bit set. -/
theorem encode_mem_all_conservative_witness :
    ENCODE_HEAP_REF &&& ENCODE_MEM ≠ 0 ∧ ENCODE_HEAP_REF &&& ENCODE_ALL = ENCODE_HEAP_REF := by
  have h := encode_mem_all_conservative ENCODE_HEAP_REF (by decide)
  exact ⟨h.2.1.mpr (Or.inr (Or.inr (Or.inl (by decide)))), h.2.2.2.2.2.2.1⟩

/-- C6: for the single-instruction method `[RETURN_VOID]`, `specialPatterns` has an entry
whose opcode array is `RETURN_VOID` followed by unset slots (opcode sequence exactly
`[RETURN_VOID]`) with handler `kNullMethod`, no other entry begins with `RETURN_VOID`,
and so a lookup of `[RETURN_VOID]` yields `kNullMethod`. -/
theorem return_void_is_null_method :
    specialPatterns.head? =
      some ⟨[.RETURN_VOID, .NOP, .NOP, .NOP, .NOP], .kNullMethod⟩ ∧
    (∀ p ∈ specialPatterns, p.opcodes.length = MAX_PATTERN_LEN) ∧
    (CodePattern.mk [.RETURN_VOID, .NOP, .NOP, .NOP, .NOP] .kNullMethod).sequence
      = [.RETURN_VOID] ∧
    (∀ p ∈ specialPatterns, p.opcodes.head? = some Code.RETURN_VOID →
      p = ⟨[.RETURN_VOID, .NOP, .NOP, .NOP, .NOP], .kNullMethod⟩) ∧
    (specialPatterns.filter (fun p => p.opcodes.head? == some Code.RETURN_VOID)).length = 1 ∧
    lookupSpecialCase specialPatterns [.RETURN_VOID] = .kNullMethod := by
  decide

/-- C7: the MIR optimization flags form a bitset: each of the ten `MIR_*` masks equals
`1 <<` its position (that is `2 ^ position`), the positions are 0..9 without repeats, the
masks are pairwise disjoint, and for every `optimizationFlags` value `f` and distinct
flags `A`, `B`, setting or clearing `A` in `f` leaves `f & B` unchanged. -/
theorem mir_flags_bitset :
    mirFlagPositions.map MIROptimizationFlagPositons.toNat = List.range 10 ∧
    (∀ p : MIROptimizationFlagPositons, p ∈ mirFlagPositions) ∧
    (∀ p : MIROptimizationFlagPositons, p.mask = 1 <<< p.toNat ∧ p.mask = 2 ^ p.toNat) ∧
    [MIR_IGNORE_NULL_CHECK, MIR_NULL_CHECK_ONLY, MIR_IGNORE_RANGE_CHECK, MIR_RANGE_CHECK_ONLY,
      MIR_INLINED, MIR_INLINED_PRED, MIR_CALLEE, MIR_IGNORE_SUSPEND_CHECK, MIR_DUP, MIR_MARK]
      = [1, 2, 4, 8, 16, 32, 64, 128, 256, 512] ∧
    (∀ p q : MIROptimizationFlagPositons, p ≠ q → p.mask &&& q.mask = 0) ∧
    (∀ (f : Nat) (p q : MIROptimizationFlagPositons), p ≠ q →
      testMirFlag (setMirFlag f p.mask) q.mask = testMirFlag f q.mask ∧
      testMirFlag (clearMirFlag f p.mask) q.mask = testMirFlag f q.mask) := by
  have hmask : ∀ p : MIROptimizationFlagPositons, p.mask = 2 ^ p.toNat := by
    intro p; cases p <;> decide
  have hlt : ∀ p : MIROptimizationFlagPositons, p.toNat < 10 := by
    intro p; cases p <;> decide
  have hinj : ∀ p q : MIROptimizationFlagPositons, p.toNat = q.toNat → p = q := by
    intro p q; cases p <;> cases q <;> decide
  refine ⟨by decide, by decide, ?_, by decide, by decide, ?_⟩
  · intro p; cases p <;> decide
  · intro f p q hpq
    have hne : p.toNat ≠ q.toNat := fun h => hpq (hinj p q h)
    have hp := hlt p
    have hq := hlt q
    constructor
    · apply Nat.eq_of_testBit_eq
      intro i
      simp only [testMirFlag, setMirFlag, hmask, Nat.testBit_and, Nat.testBit_or,
        Nat.testBit_mod_two_pow, Nat.testBit_two_pow]
      by_cases hi : q.toNat = i
      · subst hi
        simp [hne, show q.toNat < 32 by omega]
      · simp [hi]
    · apply Nat.eq_of_testBit_eq
      intro i
      simp only [testMirFlag, clearMirFlag, not32, hmask, Nat.testBit_and, Nat.testBit_xor,
        Nat.testBit_mod_two_pow, Nat.testBit_two_pow, Nat.testBit_two_pow_sub_one]
      by_cases hi : q.toNat = i
      · subst hi
        simp [hne, show q.toNat < 32 by omega]
      · simp [hi]

/-- C9: every `RegLocationType` value (`kLocDalvikFrame` = 0, `kLocPhysReg` = 1,
`kLocCompilerTemp` = 2, `kLocInvalid` = 3) survives the 3-bit bit-fields
`RegLocation.location`, `PromotionMap.coreLocation` and `PromotionMap.fpLocation`:
writing the value and reading the field back returns it, both when the field is read as
unsigned (0..7) and when it is read as signed two's complement (-4..3), and different
values leave different bits. -/
theorem reg_location_type_fits_bitfield :
    [RegLocationType.kLocDalvikFrame, .kLocPhysReg, .kLocCompilerTemp, .kLocInvalid].map
      RegLocationType.toInt = [0, 1, 2, 3] ∧
    (∀ (t : RegLocationType) (loc : RegLocation) (map : PromotionMap),
      loadUnsigned3 (loc.setLocation t).location = t.toInt ∧
      loadSigned3 (loc.setLocation t).location = t.toInt ∧
      loadUnsigned3 (map.setCoreLocation t).coreLocation = t.toInt ∧
      loadSigned3 (map.setCoreLocation t).coreLocation = t.toInt ∧
      loadUnsigned3 (map.setFpLocation t).fpLocation = t.toInt ∧
      loadSigned3 (map.setFpLocation t).fpLocation = t.toInt) ∧
    (∀ t u : RegLocationType, storeBits3 t.toInt = storeBits3 u.toInt → t = u) ∧
    (∀ bits : Nat, 0 ≤ loadUnsigned3 bits ∧ loadUnsigned3 bits ≤ 7 ∧
      -4 ≤ loadSigned3 bits ∧ loadSigned3 bits ≤ 3) := by
  refine ⟨rfl, ?_, ?_, ?_⟩
  · intro t loc map
    cases t <;>
      simp only [RegLocation.setLocation, PromotionMap.setCoreLocation,
        PromotionMap.setFpLocation] <;>
      decide
  · intro t u
    cases t <;> cases u <;> decide
  · intro bits
    unfold loadUnsigned3 loadSigned3
    split <;> omega

/-- C10: alias-info encoding round-trips in 32-bit arithmetic: for every register number
`reg < 2 ^ VREG_NUM_WIDTH` (which includes `INVALID_VREG` = 0xFFFF) and every boolean
`wide`, `DECODE_ALIAS_INFO_REG (ENCODE_ALIAS_INFO reg wide) = reg` and
`DECODE_ALIAS_INFO_WIDE (ENCODE_ALIAS_INFO reg wide) = (wide ? 1 : 0)`, also after the
encoded word has been stored in the `int aliasInfo` field and read back; the wide flag bit
0x80000000 does not overlap the 16-bit register field. -/
theorem alias_info_roundtrip (reg : Nat) (wide : Bool) (hreg : reg < 2 ^ VREG_NUM_WIDTH) :
    DECODE_ALIAS_INFO_REG (ENCODE_ALIAS_INFO reg wide) = reg ∧
    DECODE_ALIAS_INFO_WIDE (ENCODE_ALIAS_INFO reg wide) = (if wide then 1 else 0) ∧
    DECODE_ALIAS_INFO_REG (toUInt32 (toInt32 (ENCODE_ALIAS_INFO reg wide))) = reg ∧
    DECODE_ALIAS_INFO_WIDE (toUInt32 (toInt32 (ENCODE_ALIAS_INFO reg wide))) =
      (if wide then 1 else 0) ∧
    DECODE_ALIAS_INFO_WIDE_FLAG &&& (2 ^ VREG_NUM_WIDTH - 1) = 0 ∧
    2 ^ VREG_NUM_WIDTH - 1 = 0xffff ∧
    INVALID_VREG < 2 ^ VREG_NUM_WIDTH := by
  have h16 : reg < 2 ^ 16 := hreg
  have hreg32 : reg % 2 ^ 32 = reg :=
    Nat.mod_eq_of_lt (lt_of_lt_of_le h16 (by norm_num))
  have hlow : reg &&& 0xffff = reg := by
    rw [show (0xffff : Nat) = 2 ^ 16 - 1 by norm_num, Nat.and_pow_two_sub_one_eq_mod,
      Nat.mod_eq_of_lt h16]
  have hhigh : reg &&& DECODE_ALIAS_INFO_WIDE_FLAG = 0 := by
    apply Nat.eq_of_testBit_eq
    intro i
    rw [show DECODE_ALIAS_INFO_WIDE_FLAG = 2 ^ 31 by decide]
    simp only [Nat.testBit_and, Nat.testBit_two_pow, Nat.zero_testBit]
    by_cases hi : 31 = i
    · subst hi
      rw [Nat.testBit_lt_two_pow (lt_of_lt_of_le h16 (by norm_num))]
      rfl
    · simp [hi]
  have henc_lt : ENCODE_ALIAS_INFO reg wide < 2 ^ 32 := Nat.mod_lt _ (by norm_num)
  have henc : ENCODE_ALIAS_INFO reg wide =
      reg ||| (if wide then DECODE_ALIAS_INFO_WIDE_FLAG else 0) := by
    unfold ENCODE_ALIAS_INFO
    rw [hreg32]
    apply Nat.mod_eq_of_lt
    apply Nat.or_lt_two_pow (lt_of_lt_of_le h16 (by norm_num))
    cases wide <;> decide
  have hstore : toUInt32 (toInt32 (ENCODE_ALIAS_INFO reg wide)) = ENCODE_ALIAS_INFO reg wide := by
    unfold toUInt32 toInt32 wrapInt32
    norm_num at henc_lt ⊢
    omega
  have hR : DECODE_ALIAS_INFO_REG (ENCODE_ALIAS_INFO reg wide) = reg := by
    unfold DECODE_ALIAS_INFO_REG
    rw [Nat.mod_eq_of_lt henc_lt, henc, and_lor_distrib_right, hlow]
    have hflag : DECODE_ALIAS_INFO_WIDE_FLAG &&& 0xffff = 0 := by decide
    cases wide
    · simp
    · simp only [if_true, hflag, Nat.or_zero]
  have hW : DECODE_ALIAS_INFO_WIDE (ENCODE_ALIAS_INFO reg wide) = (if wide then 1 else 0) := by
    unfold DECODE_ALIAS_INFO_WIDE
    rw [Nat.mod_eq_of_lt henc_lt, henc, and_lor_distrib_right, hhigh]
    cases wide <;> simp [DECODE_ALIAS_INFO_WIDE_FLAG]
  refine ⟨hR, hW, ?_, ?_, by decide, by decide, by decide⟩
  · rw [hstore]; exact hR
  · rw [hstore]; exact hW

/-- C10 witness: the theorem applied to `INVALID_VREG` with the wide flag set. -/
theorem alias_info_roundtrip_witness :
    INVALID_VREG < 2 ^ VREG_NUM_WIDTH ∧
    DECODE_ALIAS_INFO_REG (ENCODE_ALIAS_INFO INVALID_VREG true) = INVALID_VREG ∧
    DECODE_ALIAS_INFO_WIDE (ENCODE_ALIAS_INFO INVALID_VREG true) = 1 :=
  ⟨by decide, (alias_info_roundtrip INVALID_VREG true (by decide)).1,
    (alias_info_roundtrip INVALID_VREG true (by decide)).2.1⟩

/-- C11: the special-pattern table is an unambiguous function of the opcode sequence: each
of the 22 entries uses an opcode sequence of length 1 or 2 (at most `MAX_PATTERN_LEN` = 5)
whose last opcode is a return instruction (`RETURN_VOID`, `RETURN`, `RETURN_OBJECT` or
`RETURN_WIDE`); no two entries have the same opcode sequence and no entry's sequence is a
proper prefix of another's, so at most one entry is a prefix of any method and the handler
found does not depend on the order in which the table is searched. -/
theorem special_patterns_unambiguous :
    specialPatterns.length = 22 ∧ MAX_PATTERN_LEN = 5 ∧
    (∀ p ∈ specialPatterns,
      (p.sequence.length = 1 ∨ p.sequence.length = 2) ∧
      p.sequence.length ≤ MAX_PATTERN_LEN ∧
      p.opcodes.length = MAX_PATTERN_LEN ∧
      p.sequence.getLast?.map Code.isReturn = some true) ∧
    (specialPatterns.map CodePattern.sequence).Nodup ∧
    (∀ p ∈ specialPatterns, ∀ q ∈ specialPatterns, p.sequence <+: q.sequence → p = q) ∧
    (∀ (insns : List Code), ∀ p ∈ specialPatterns, ∀ q ∈ specialPatterns,
      p.sequence <+: insns → q.sequence <+: insns → p = q) ∧
    (∀ (table : List CodePattern) (insns : List Code), table.Perm specialPatterns →
      lookupSpecialCase table insns = lookupSpecialCase specialPatterns insns) := by
  have hpfx : ∀ p ∈ specialPatterns, ∀ q ∈ specialPatterns,
      p.sequence <+: q.sequence → p = q := by decide
  refine ⟨rfl, rfl, by decide, by decide, hpfx, ?_, ?_⟩
  · intro insns p hp q hq hpi hqi
    rcases List.prefix_or_prefix_of_prefix hpi hqi with h | h
    · exact hpfx p hp q hq h
    · exact (hpfx q hq p hp h).symm
  · intro table insns hperm
    have huniq : ∀ p ∈ specialPatterns, ∀ q ∈ specialPatterns,
        p.sequence = q.sequence → q = p := by
      intro p hp q hq h
      exact hpfx q hq p hp (h ▸ List.prefix_refl _)
    by_cases hex : ∃ p ∈ specialPatterns, p.sequence = insns
    · obtain ⟨p, hp, hseq⟩ := hex
      rw [lookup_of_unique (hperm.mem_iff.mpr hp) hseq
          (fun q hq hqs => huniq p hp q (hperm.mem_iff.mp hq) (hseq.trans hqs.symm)),
        lookup_of_unique hp hseq (fun q hq hqs => huniq p hp q hq (hseq.trans hqs.symm))]
    · have hnone : ∀ q ∈ specialPatterns, q.sequence ≠ insns :=
        fun q hq hqs => hex ⟨q, hq, hqs⟩
      rw [lookup_of_none (fun q hq => hnone q (hperm.mem_iff.mp hq)), lookup_of_none hnone]

/-- C11 witness: searching the table back to front finds the same handler for the method
`[IGET, RETURN]`. -/
theorem special_patterns_unambiguous_witness :
    lookupSpecialCase specialPatterns.reverse [.IGET, .RETURN] = .kIGet :=
  (special_patterns_unambiguous.2.2.2.2.2.2 specialPatterns.reverse [.IGET, .RETURN]
    (List.reverse_perm specialPatterns)).trans (by decide)

/-- C12: extended MIR opcodes never collide with real bytecode opcodes: `kMirOpPhi` equals
`kMirOpFirst` equals `kNumPackedOpcodes`; the twelve extended opcodes
`kMirOpPhi .. kMirOpCheck` are pairwise distinct and are exactly the values
`kMirOpFirst .. kMirOpLast - 1`; so a value `v` is an extended MIR opcode iff
`kMirOpFirst <= v < kMirOpLast`, and no packed opcode `v < kNumPackedOpcodes` is one. -/
theorem extended_mir_opcodes_range (kNumPackedOpcodes : Nat) :
    kMirOpPhi kNumPackedOpcodes = kMirOpFirst kNumPackedOpcodes ∧
    kMirOpFirst kNumPackedOpcodes = kNumPackedOpcodes ∧
    kMirOpLast kNumPackedOpcodes = kNumPackedOpcodes + 12 ∧
    (extendedMIROpcodes kNumPackedOpcodes).length = 12 ∧
    (extendedMIROpcodes kNumPackedOpcodes).Nodup ∧
    extendedMIROpcodes kNumPackedOpcodes =
      List.range' (kMirOpFirst kNumPackedOpcodes)
        (kMirOpLast kNumPackedOpcodes - kMirOpFirst kNumPackedOpcodes) ∧
    (∀ v, v ∈ extendedMIROpcodes kNumPackedOpcodes ↔
      kMirOpFirst kNumPackedOpcodes ≤ v ∧ v < kMirOpLast kNumPackedOpcodes) ∧
    (∀ v, v < kNumPackedOpcodes → v ∉ extendedMIROpcodes kNumPackedOpcodes) := by
  have hlist : extendedMIROpcodes kNumPackedOpcodes =
      List.range' (kMirOpFirst kNumPackedOpcodes)
        (kMirOpLast kNumPackedOpcodes - kMirOpFirst kNumPackedOpcodes) := by
    have hlen : kMirOpLast kNumPackedOpcodes - kMirOpFirst kNumPackedOpcodes = 12 := by
      simp only [kMirOpLast, kMirOpCheck, kMirOpDivZeroCheck, kMirOpRangeCheck,
        kMirOpNullCheck, kMirOpNop, kMirOpFusedCmpLong, kMirOpFusedCmpgDouble,
        kMirOpFusedCmplDouble, kMirOpFusedCmpgFloat, kMirOpFusedCmplFloat, kMirOpCopy,
        kMirOpPhi, kMirOpFirst]
      omega
    rw [hlen]
    simp [extendedMIROpcodes, List.range', kMirOpCheck, kMirOpDivZeroCheck,
      kMirOpRangeCheck, kMirOpNullCheck, kMirOpNop, kMirOpFusedCmpLong,
      kMirOpFusedCmpgDouble, kMirOpFusedCmplDouble, kMirOpFusedCmpgFloat,
      kMirOpFusedCmplFloat, kMirOpCopy, kMirOpPhi, kMirOpFirst, Nat.add_assoc]
  have hlast : kMirOpLast kNumPackedOpcodes = kNumPackedOpcodes + 12 := rfl
  have hmem : ∀ v, v ∈ extendedMIROpcodes kNumPackedOpcodes ↔
      kMirOpFirst kNumPackedOpcodes ≤ v ∧ v < kMirOpLast kNumPackedOpcodes := by
    intro v
    rw [hlist, List.mem_range'_1, hlast]
    simp only [kMirOpFirst]
    omega
  refine ⟨rfl, rfl, hlast, rfl, ?_, hlist, hmem, ?_⟩
  · rw [hlist]
    exact List.nodup_range' _ _
  · intro v hv hin
    have := (hmem v).mp hin
    simp only [kMirOpFirst] at this
    omega

/-- C13: a freshly constructed `CompilationUnit` is in the empty state: `numBlocks` = 0,
the LIR chain is empty (`firstLIRInsn`, `lastLIRInsn` and the three literal lists are
`NULL`), `entryBlock`, `exitBlock` and `curBlock` are `NULL`, `numSSARegs` = 0 and
`numDalvikRegisters` = 0, `disableOpt` = 0 and `enableDebug` = 0 so that every
`SLOW_*_PATH` value is 0 (false), `disableDataflow` is false, `assemblerStatus` is
`kSuccess` with 0 retries, and `frameSize`, `numCoreSpills`, `numFPSpills`,
`coreSpillMask` and `fpSpillMask` are all 0. -/
theorem fresh_compilation_unit_empty :
    CompilationUnit.ctor.numBlocks = 0 ∧
    CompilationUnit.ctor.firstLIRInsn = none ∧
    CompilationUnit.ctor.lastLIRInsn = none ∧
    (∀ mem : LIRMem, IsChain mem CompilationUnit.ctor [] ∧
      ∀ fuel, lirSequence mem CompilationUnit.ctor fuel = []) ∧
    CompilationUnit.ctor.literalList = none ∧
    CompilationUnit.ctor.methodLiteralList = none ∧
    CompilationUnit.ctor.codeLiteralList = none ∧
    CompilationUnit.ctor.entryBlock = none ∧
    CompilationUnit.ctor.exitBlock = none ∧
    CompilationUnit.ctor.curBlock = none ∧
    CompilationUnit.ctor.numSSARegs = 0 ∧
    CompilationUnit.ctor.numDalvikRegisters = 0 ∧
    CompilationUnit.ctor.disableOpt = 0 ∧
    CompilationUnit.ctor.enableDebug = 0 ∧
    (∀ k, SLOW_FIELD_PATH CompilationUnit.ctor k = 0 ∧
      SLOW_INVOKE_PATH CompilationUnit.ctor k = 0 ∧
      SLOW_STRING_PATH CompilationUnit.ctor k = 0 ∧
      SLOW_TYPE_PATH CompilationUnit.ctor k = 0 ∧
      EXERCISE_SLOWEST_STRING_PATH CompilationUnit.ctor k = 0) ∧
    CompilationUnit.ctor.disableDataflow = false ∧
    CompilationUnit.ctor.assemblerStatus = AssemblerStatus.kSuccess ∧
    CompilationUnit.ctor.assemblerRetries = 0 ∧
    CompilationUnit.ctor.frameSize = 0 ∧
    CompilationUnit.ctor.numCoreSpills = 0 ∧
    CompilationUnit.ctor.numFPSpills = 0 ∧
    CompilationUnit.ctor.coreSpillMask = 0 ∧
    CompilationUnit.ctor.fpSpillMask = 0 := by
  refine ⟨rfl, rfl, rfl, ?_, rfl, rfl, rfl, rfl, rfl, rfl, rfl, rfl, rfl, rfl, ?_, rfl, rfl,
    rfl, rfl, rfl, rfl, rfl, rfl⟩
  · intro mem
    refine ⟨⟨List.nodup_nil, rfl, rfl, linked_nil _ _⟩, ?_⟩
    intro fuel
    cases fuel <;> rfl
  · intro k
    have h0 : (CompilationUnit.ctor.enableDebug % 2 ^ 32) = 0 := rfl
    simp only [SLOW_FIELD_PATH, SLOW_INVOKE_PATH, SLOW_STRING_PATH, SLOW_TYPE_PATH,
      EXERCISE_SLOWEST_STRING_PATH, h0, Nat.zero_and, and_self]

end Art
